import Mathlib

/-!
Shallow embedding of the `envelope_detector` crate (src/lib.rs, src/peak.rs,
src/rms.rs, src/mode.rs).

Samples are 32-bit floats in the source; here they are modelled as exact
rationals (`ℚ`), since every state-updating operation of the crate uses only
comparison, negation, addition, subtraction, multiplication and division.
The two transcendental outputs — the RMS square root and the gain
`e^(-1/frames)` — are modelled with `Real.sqrt` and `Real.exp`, so envelope
values and gains live in `ℝ`.

Rust methods taking `&mut self` and returning a value are split into a
`_state` part (the updated receiver) and an `_out` part (the returned value),
or return a pair. A Rust `panic!` / `assert!` / out-of-bounds index is
modelled with `Option` (`none` = panic).
-/

/-- The three rectifier policies of src/peak.rs (`FullWave`,
`PositiveHalfWave`, `NegativeHalfWave`); the source encodes them as
zero-sized marker types implementing the `Rectifier` trait. -/
inductive Rectifier
  | positiveHalfWave
  | negativeHalfWave
  | fullWave
deriving DecidableEq

/-- `Rectifier::rectify` for each policy (src/peak.rs). Signal equilibrium
for a float sample is `0`. `FullWave` maps `s` to `-s` when `s < 0` else `s`;
`PositiveHalfWave` maps `s` to `0` when `s < 0` else `s`; `NegativeHalfWave`
maps `s` to `0` when `s > 0` else `s`. -/
def Rectifier.rectify : Rectifier → ℚ → ℚ
  | .positiveHalfWave, s => if s < 0 then 0 else s
  | .negativeHalfWave, s => if 0 < s then 0 else s
  | .fullWave, s => if s < 0 then -s else s

/-- `Peak<R>` (src/peak.rs): a peak rectifier. The source carries the
policy as a phantom type parameter `R`; here it is a field. -/
structure Peak where
  rectifier : Rectifier
deriving DecidableEq

/-- `Peak::full_wave()`. -/
def Peak.full_wave : Peak := ⟨.fullWave⟩

/-- `Peak::positive_half_wave()`. -/
def Peak.positive_half_wave : Peak := ⟨.positiveHalfWave⟩

/-- `Peak::negative_half_wave()`. -/
def Peak.negative_half_wave : Peak := ⟨.negativeHalfWave⟩

/-- `Peak::rectify(frame)` forwards to `R::rectify`. -/
def Peak.rectify (p : Peak) (s : ℚ) : ℚ := p.rectifier.rectify s

/-- `Rms<F>` (src/rms.rs) for scalar float frames: the ring buffer of squared
samples (front = oldest) and the running sum of the buffer's contents. -/
structure Rms where
  window : List ℚ
  sum : ℚ
deriving DecidableEq

/-- `Rms::new(n_window_frames)`: a window of `n_window_frames` frames at
signal equilibrium, sum at equilibrium. -/
def Rms.new (n_window_frames : ℕ) : Rms :=
  { window := List.replicate n_window_frames 0, sum := 0 }

/-- `Rms::reset`: zero every window entry and the sum. -/
def Rms.reset (r : Rms) : Rms :=
  { window := List.replicate r.window.length 0, sum := 0 }

/-- `Rms::pop_front`: remove the front sample square and subtract it from
`sum`, clamping the difference at `0`. The source `unwrap`s the popped
element and panics on an empty window; every caller guards non-emptiness,
so the `[]` branch (unreachable in the source) returns the state unchanged. -/
def Rms.pop_front (r : Rms) : Rms :=
  match r.window with
  | [] => r
  | removed_sample_square :: rest =>
      let diff := r.sum - removed_sample_square
      { window := rest, sum := if diff < 0 then 0 else diff }

/-- `Rms::push_back(new_frame)`: square the frame, push the square onto the
back of the window and add it to `sum`. -/
def Rms.push_back (r : Rms) (new_frame : ℚ) : Rms :=
  let new_frame_square := new_frame * new_frame
  { window := r.window ++ [new_frame_square], sum := r.sum + new_frame_square }

/-- The argument of the square root in `Rms::calc_rms`:
`sum / window.len()` (division by zero yields `0` in `ℚ`, matching no call
site: `calc_rms` is only reached with a non-empty window). -/
def Rms.calc_rms_sq (r : Rms) : ℚ := r.sum / (r.window.length : ℚ)

/-- `Rms::calc_rms`: `sqrt(sum / window.len())`. -/
noncomputable def Rms.calc_rms (r : Rms) : ℝ := Real.sqrt (r.calc_rms_sq : ℝ)

/-- State part of `Rms::next(new_frame)`: if the window is empty nothing is
touched; otherwise pop the front square and push the new frame's square. -/
def Rms.next_state (r : Rms) (new_frame : ℚ) : Rms :=
  if r.window.length = 0 then r else (r.pop_front).push_back new_frame

/-- Value part of `Rms::next(new_frame)`: `Frame::equilibrium()` (`0`) on an
empty window, else the RMS of the updated window. -/
noncomputable def Rms.next_out (r : Rms) (new_frame : ℚ) : ℝ :=
  if r.window.length = 0 then 0 else ((r.pop_front).push_back new_frame).calc_rms

/-- The `for _ in 0..diff { self.pop_front(); }` loop of
`Rms::set_window_frames`. -/
def Rms.pop_front_n : ℕ → Rms → Rms
  | 0, r => r
  | k + 1, r => Rms.pop_front_n k r.pop_front

/-- `Rms::set_window_frames(n_window_frames)` (src/rms.rs): no-op when the
length matches; shrink by popping `len - n` squares from the front; grow by
pushing `n - len` equilibrium (`0`) squares onto the front. -/
def Rms.set_window_frames (r : Rms) (n_window_frames : ℕ) : Rms :=
  let len := r.window.length
  if len = n_window_frames then r
  else if n_window_frames < len then Rms.pop_front_n (len - n_window_frames) r
  else { r with window := List.replicate (n_window_frames - len) 0 ++ r.window }

/-- `Rms::window_frames`. -/
def Rms.window_frames (r : Rms) : ℕ := r.window.length

/-- The `Mode` trait (src/mode.rs): update mode-specific state and produce
the next mode estimate. -/
class Mode (D : Type) where
  next_frame : D → ℚ → D × ℝ

/-- `impl Mode for Peak`: stateless, the estimate is the rectified sample. -/
instance : Mode Peak where
  next_frame p s := (p, ((p.rectify s : ℚ) : ℝ))

/-- `impl Mode for Rms`: the estimate is `Rms::next`. -/
noncomputable instance : Mode Rms where
  next_frame r s := (r.next_state s, r.next_out s)

/-- `Mono<D>` (src/lib.rs): a single channel's detection mode plus the last
emitted envelope sample. -/
structure Mono (D : Type) where
  detection_mode : D
  last_env_sample : ℝ

/-- `Mono::new(detection_mode)`: `last_env_sample` starts at `0.0`. -/
def Mono.new {D : Type} (detection_mode : D) : Mono D :=
  { detection_mode := detection_mode, last_env_sample := 0 }

/-- `Mono::rms(rms_window_frames)`. -/
def Mono.rms (rms_window_frames : ℕ) : Mono Rms :=
  Mono.new (Rms.new rms_window_frames)

/-- `Mono::peak()`: full-wave rectification. -/
def Mono.peak : Mono Peak := Mono.new Peak.full_wave

/-- `Mono::next(sample, attack_gain, release_gain)` (src/lib.rs): obtain the
mode estimate, choose `attack_gain` when `last_env_sample < mode_sample`
(else `release_gain`), smooth, store and return the new envelope sample. -/
noncomputable def Mono.next {D : Type} [Mode D] (m : Mono D) (sample : ℚ)
    (attack_gain release_gain : ℝ) : Mono D × ℝ :=
  let step := Mode.next_frame m.detection_mode sample
  let mode_sample := step.2
  let last_env_sample := m.last_env_sample
  let gain := if last_env_sample < mode_sample then attack_gain else release_gain
  let new_env_sample := mode_sample + gain * (last_env_sample - mode_sample)
  ({ detection_mode := step.1, last_env_sample := new_env_sample }, new_env_sample)

/-- `Mono::<Rms>::set_window_frames(n)`: forwards to the `Rms` window. -/
def Mono.set_window_frames (m : Mono Rms) (n_window_frames : ℕ) : Mono Rms :=
  { m with detection_mode := m.detection_mode.set_window_frames n_window_frames }

/-- `MultiChannel<D>` (src/lib.rs): one `Mono` per channel. -/
structure MultiChannel (D : Type) where
  channels : List (Mono D)

/-- `MultiChannel::resize(n_channels)` (src/lib.rs lines 180-192): no-op when
the length matches; truncate when too long; otherwise clone the last channel
and `extend` with `(0..n_channels).map(|_| clone.clone())` — i.e. the source
appends `n_channels` clones, not `n_channels - len`. The source `unwrap`s
`channels.last()` and would panic on an empty channel list; both public
constructors enforce at least one channel, so the `none` branch (unreachable
in the source) returns the state unchanged. -/
def MultiChannel.resize {D : Type} (mc : MultiChannel D) (n_channels : ℕ) :
    MultiChannel D :=
  let len := mc.channels.length
  if len = n_channels then mc
  else if n_channels < len then { channels := mc.channels.take n_channels }
  else
    match mc.channels.getLast? with
    | none => mc
    | some c => { channels := mc.channels ++ List.replicate n_channels c }

/-- `EnvelopeDetector<C>` (src/lib.rs): channel mode plus the shared attack
and release gains. -/
structure EnvelopeDetector (C : Type) where
  channel_mode : C
  attack_gain : ℝ
  release_gain : ℝ

/-- `calc_gain(frames) = E.powf(-1.0 / frames) = exp(-1 / frames)`. -/
noncomputable def calc_gain (frames : ℝ) : ℝ := Real.exp (-1 / frames)

/-- `EnvelopeDetector::new(channel_mode, attack_frames, release_frames)`. -/
noncomputable def EnvelopeDetector.new {C : Type} (channel_mode : C)
    (attack_frames release_frames : ℝ) : EnvelopeDetector C :=
  { channel_mode := channel_mode
    attack_gain := calc_gain attack_frames
    release_gain := calc_gain release_frames }

/-- `EnvelopeDetector::set_attack_frames(frames)`. -/
noncomputable def EnvelopeDetector.set_attack_frames {C : Type}
    (d : EnvelopeDetector C) (frames : ℝ) : EnvelopeDetector C :=
  { d with attack_gain := calc_gain frames }

/-- `EnvelopeDetector::set_release_frames(frames)` (src/lib.rs lines 78-81).
The body of the source is `self.attack_gain = calc_gain(frames);` — it
assigns the ATTACK gain, exactly as transcribed here, despite its doc
comment "Set the EnvelopeDetector's release time". -/
noncomputable def EnvelopeDetector.set_release_frames {C : Type}
    (d : EnvelopeDetector C) (frames : ℝ) : EnvelopeDetector C :=
  { d with attack_gain := calc_gain frames }

/-- `MonoEnvelopeDetector<D> = EnvelopeDetector<Mono<D>>`. -/
abbrev MonoEnvelopeDetector (D : Type) := EnvelopeDetector (Mono D)

/-- `MultiChannelEnvelopeDetector<D> = EnvelopeDetector<MultiChannel<D>>`. -/
abbrev MultiChannelEnvelopeDetector (D : Type) := EnvelopeDetector (MultiChannel D)

/-- `MonoEnvelopeDetector::<Rms>::rms(..)`. -/
noncomputable def MonoEnvelopeDetector.rms (rms_window_frames : ℕ)
    (attack_frames release_frames : ℝ) : MonoEnvelopeDetector Rms :=
  EnvelopeDetector.new (Mono.rms rms_window_frames) attack_frames release_frames

/-- `MonoEnvelopeDetector::<Rms>::set_window_frames(n)`: forwards to the
channel's `Mono::set_window_frames`. -/
def MonoEnvelopeDetector.set_window_frames (d : MonoEnvelopeDetector Rms)
    (n_window_frames : ℕ) : MonoEnvelopeDetector Rms :=
  { d with channel_mode := d.channel_mode.set_window_frames n_window_frames }

/-- `MonoEnvelopeDetector::next(sample)`. -/
noncomputable def MonoEnvelopeDetector.next {D : Type} [Mode D]
    (d : MonoEnvelopeDetector D) (sample : ℚ) : MonoEnvelopeDetector D × ℝ :=
  let r := d.channel_mode.next sample d.attack_gain d.release_gain
  ({ d with channel_mode := r.1 }, r.2)

/-- `MultiChannelEnvelopeDetector::<Rms>::rms(..)`: asserts
`n_channels > 0` (modelled as `none`), then builds `n_channels` fresh RMS
channels. -/
noncomputable def MultiChannelEnvelopeDetector.rms (rms_window_frames : ℕ)
    (attack_frames release_frames : ℝ) (n_channels : ℕ) :
    Option (MultiChannelEnvelopeDetector Rms) :=
  if n_channels = 0 then none
  else some (EnvelopeDetector.new
    { channels := List.replicate n_channels (Mono.rms rms_window_frames) }
    attack_frames release_frames)

/-- `MultiChannelEnvelopeDetector::<Peak>::peak(..)`: asserts
`n_channels > 0` (modelled as `none`), then builds `n_channels` fresh
full-wave peak channels. -/
noncomputable def MultiChannelEnvelopeDetector.peak
    (attack_frames release_frames : ℝ) (n_channels : ℕ) :
    Option (MultiChannelEnvelopeDetector Peak) :=
  if n_channels = 0 then none
  else some (EnvelopeDetector.new
    { channels := List.replicate n_channels Mono.peak }
    attack_frames release_frames)

/-- `MultiChannelEnvelopeDetector::set_channels(n_channels)` (src/lib.rs
lines 239-243): asserts `n_channels > 0` (modelled as `none`), then calls
`MultiChannel::resize`. -/
def MultiChannelEnvelopeDetector.set_channels {D : Type}
    (d : MultiChannelEnvelopeDetector D) (n_channels : ℕ) :
    Option (MultiChannelEnvelopeDetector D) :=
  if n_channels = 0 then none
  else some { d with channel_mode := d.channel_mode.resize n_channels }

/-- `MultiChannelEnvelopeDetector::next(channel_idx, sample)` (src/lib.rs
lines 249-252): indexes `channels[channel_idx]`; an out-of-range index
panics (modelled as `none`). -/
noncomputable def MultiChannelEnvelopeDetector.next {D : Type} [Mode D]
    (d : MultiChannelEnvelopeDetector D) (channel_idx : ℕ) (sample : ℚ) :
    Option (MultiChannelEnvelopeDetector D × ℝ) :=
  match d.channel_mode.channels[channel_idx]? with
  | none => none
  | some ch =>
      let r := ch.next sample d.attack_gain d.release_gain
      some ({ d with
                channel_mode := { channels := d.channel_mode.channels.set channel_idx r.1 } },
            r.2)

/-- The operations a host may interleave on one `Rms` detector: a `next`
step, a `reset`, or a `set_window_frames` resize. -/
inductive RmsOp
  | next (sample : ℚ)
  | reset
  | setWindow (n : ℕ)

/-- Apply one `RmsOp` to an `Rms` state. -/
def Rms.applyOp (r : Rms) : RmsOp → Rms
  | .next s => r.next_state s
  | .reset => r.reset
  | .setWindow n => r.set_window_frames n

/-- Apply a sequence of `RmsOp`s, oldest first. -/
def Rms.applyOps (r : Rms) (ops : List RmsOp) : Rms :=
  ops.foldl Rms.applyOp r

/-! ## Claims -/

/-- C1 (code_bug): the claim says `set_release_frames(T)` sets the release
gain to `exp(-1/T)` and leaves the attack gain unchanged, matching the
source's own doc comment; the source body instead assigns the attack gain.
Failing input: the detector `new(mono peak, attack_frames = 1,
release_frames = 2)` after `set_release_frames(3)` keeps
`release_gain = calc_gain 2 ≠ calc_gain 3` and has its `attack_gain`
overwritten with `calc_gain 3 ≠ calc_gain 1`. -/
theorem c1_set_release_frames_sets_attack_gain :
    ((EnvelopeDetector.new Mono.peak 1 2).set_release_frames 3).release_gain = calc_gain 2 ∧
    ((EnvelopeDetector.new Mono.peak 1 2).set_release_frames 3).attack_gain = calc_gain 3 ∧
    calc_gain 3 ≠ calc_gain 2 ∧ calc_gain 3 ≠ calc_gain 1 := by
  refine ⟨rfl, rfl, ?_, ?_⟩ <;>
  · unfold calc_gain
    intro h
    have h2 := Real.exp_injective h
    norm_num at h2

/-- C2 (code_bug): the claim says `set_channels(n)` with `n > len` yields
exactly `n` channels (`n - len` clones of the last channel appended); the
source's `MultiChannel::resize` appends `n` clones instead, yielding
`len + n` channels. Failing input: an RMS detector built with 1 channel,
after `set_channels 2`, has 3 channels, not 2. -/
theorem c2_set_channels_wrong_count :
    Option.map (fun d => d.channel_mode.channels.length)
      ((MultiChannelEnvelopeDetector.rms 4 1 2 1).bind
        (fun d => d.set_channels 2)) = some 3 ∧
    Option.map (fun d => d.channel_mode.channels.length)
      ((MultiChannelEnvelopeDetector.rms 4 1 2 1).bind
        (fun d => d.set_channels 2)) ≠ some 2 := by
  constructor
  · rfl
  · intro h
    rw [show Option.map (fun d : MultiChannelEnvelopeDetector Rms =>
          d.channel_mode.channels.length)
          ((MultiChannelEnvelopeDetector.rms 4 1 2 1).bind
            (fun d => d.set_channels 2)) = some 3 from rfl] at h
    simp at h

/-- C3 counterexample: the claim says growing `set_window_frames` pads the
front with entries equal to the current average squared value, preserving
the RMS. On the `Rms` state with window `[1]` and sum `1` (average squared
value `1`, reached from `Rms::new(1)` by one `next(1)` step), resizing to 2
pads with `0`, not `1`, and the mean square drops from `1` to `1/2`. -/
theorem c3_zero_padding_counterexample :
    ((Rms.new 1).next_state 1).calc_rms_sq = 1 ∧
    (((Rms.new 1).next_state 1).set_window_frames 2).window = [0, 1] ∧
    (((Rms.new 1).next_state 1).set_window_frames 2).window ≠ [1, 1] ∧
    (((Rms.new 1).next_state 1).set_window_frames 2).calc_rms_sq ≠
      ((Rms.new 1).next_state 1).calc_rms_sq := by
  have h1 : (Rms.new 1).next_state 1 = ⟨[1], 1⟩ := by
    norm_num [Rms.new, Rms.next_state, Rms.pop_front, Rms.push_back]
  rw [h1]
  refine ⟨?_, ?_, ?_, ?_⟩
  · norm_num [Rms.calc_rms_sq]
  · norm_num [Rms.set_window_frames, List.replicate]
  · norm_num [Rms.set_window_frames, List.replicate]
  · norm_num [Rms.set_window_frames, Rms.calc_rms_sq, List.replicate]

/-- C3 amended: growing `set_window_frames(n)` inserts exactly
`n - len` new entries at the front of the window — each equal to signal
equilibrium (`0`), so they are the first to be evicted — and leaves `sum`
unchanged. -/
theorem c3_amended_grow_zero_pads_front (r : Rms) (n : ℕ)
    (h : r.window.length < n) :
    (r.set_window_frames n).window =
      List.replicate (n - r.window.length) 0 ++ r.window ∧
    (r.set_window_frames n).sum = r.sum := by
  unfold Rms.set_window_frames
  rw [if_neg (Nat.ne_of_lt h), if_neg (by omega)]
  exact ⟨rfl, rfl⟩

/-- Witness for `c3_amended_grow_zero_pads_front` at `Rms.new 1`, `n = 3`. -/
theorem c3_amended_grow_zero_pads_front_witness :
    (Rms.new 1).window.length < 3 ∧
    (((Rms.new 1).set_window_frames 3).window =
        List.replicate (3 - (Rms.new 1).window.length) 0 ++ (Rms.new 1).window ∧
      ((Rms.new 1).set_window_frames 3).sum = (Rms.new 1).sum) :=
  ⟨by decide, c3_amended_grow_zero_pads_front (Rms.new 1) 3 (by decide)⟩

/-- C4 (confirmed): `Mono::next(sample)` obtains the mode estimate from the
detection mode, selects the attack gain iff `last_env_sample` is strictly
below the estimate (release on falling or equal), computes
`estimate + gain * (last_env_sample - estimate)`, stores it as the new
`last_env_sample` and returns it; the detection mode advances to its
updated state. -/
theorem c4_mono_next_smoothing {D : Type} [Mode D] (m : Mono D) (sample : ℚ)
    (attack_gain release_gain : ℝ) :
    (m.next sample attack_gain release_gain).2 =
      (Mode.next_frame m.detection_mode sample).2 +
        (if m.last_env_sample < (Mode.next_frame m.detection_mode sample).2
          then attack_gain else release_gain) *
          (m.last_env_sample - (Mode.next_frame m.detection_mode sample).2) ∧
    (m.next sample attack_gain release_gain).1.last_env_sample =
      (m.next sample attack_gain release_gain).2 ∧
    (m.next sample attack_gain release_gain).1.detection_mode =
      (Mode.next_frame m.detection_mode sample).1 :=
  ⟨rfl, rfl, rfl⟩

/-- C5 (confirmed): `rectify` returns `|s|` under `FullWave`, `s` when
`s ≥ 0` else `0` under `PositiveHalfWave`, and `s` when `s ≤ 0` else `0`
under `NegativeHalfWave`. -/
theorem c5_rectify_per_mode (sample : ℚ) :
    Rectifier.fullWave.rectify sample = |sample| ∧
    Rectifier.positiveHalfWave.rectify sample =
      (if 0 ≤ sample then sample else 0) ∧
    Rectifier.negativeHalfWave.rectify sample =
      (if sample ≤ 0 then sample else 0) := by
  refine ⟨?_, ?_, ?_⟩
  · show (if sample < 0 then -sample else sample) = |sample|
    rcases lt_or_le sample 0 with h | h
    · rw [if_pos h, abs_of_neg h]
    · rw [if_neg (not_lt.mpr h), abs_of_nonneg h]
  · show (if sample < 0 then 0 else sample) = if 0 ≤ sample then sample else 0
    rcases lt_or_le sample 0 with h | h
    · rw [if_pos h, if_neg (not_le.mpr h)]
    · rw [if_neg (not_lt.mpr h), if_pos h]
  · show (if 0 < sample then 0 else sample) = if sample ≤ 0 then sample else 0
    rcases lt_or_le 0 sample with h | h
    · rw [if_pos h, if_neg (not_le.mpr h)]
    · rw [if_neg (not_lt.mpr h), if_pos h]

/-- On a non-empty window, `Rms::next` returns the square root of the updated
state's mean square. -/
theorem Rms.next_out_eq (r : Rms) (s : ℚ) (h : ¬ r.window.length = 0) :
    r.next_out s = Real.sqrt ((r.next_state s).calc_rms_sq : ℝ) := by
  unfold Rms.next_out Rms.next_state Rms.calc_rms
  rw [if_neg h, if_neg h]

/-- C6 (confirmed): `Rms::new(4)` fed `1, 1, 1, 1` returns
`sqrt(1/4), sqrt(2/4), sqrt(3/4), 1.0`, and a fifth sample `0` returns
`sqrt(3/4)`. -/
theorem c6_rms_concrete_scenario :
    (Rms.new 4).next_out 1 = Real.sqrt (1/4) ∧
    ((Rms.new 4).next_state 1).next_out 1 = Real.sqrt (2/4) ∧
    (((Rms.new 4).next_state 1).next_state 1).next_out 1 = Real.sqrt (3/4) ∧
    ((((Rms.new 4).next_state 1).next_state 1).next_state 1).next_out 1 = 1 ∧
    (((((Rms.new 4).next_state 1).next_state 1).next_state 1).next_state 1).next_out 0
      = Real.sqrt (3/4) := by
  have e0 : Rms.new 4 = ⟨[0, 0, 0, 0], 0⟩ := by
    norm_num [Rms.new, List.replicate]
  have s1 : (Rms.new 4).next_state 1 = ⟨[0, 0, 0, 1], 1⟩ := by
    rw [e0]; norm_num [Rms.next_state, Rms.pop_front, Rms.push_back]
  have s2 : ((Rms.new 4).next_state 1).next_state 1 = ⟨[0, 0, 1, 1], 2⟩ := by
    rw [s1]; norm_num [Rms.next_state, Rms.pop_front, Rms.push_back]
  have s3 : (((Rms.new 4).next_state 1).next_state 1).next_state 1
      = ⟨[0, 1, 1, 1], 3⟩ := by
    rw [s2]; norm_num [Rms.next_state, Rms.pop_front, Rms.push_back]
  have s4 : ((((Rms.new 4).next_state 1).next_state 1).next_state 1).next_state 1
      = ⟨[1, 1, 1, 1], 4⟩ := by
    rw [s3]; norm_num [Rms.next_state, Rms.pop_front, Rms.push_back]
  have s5 : (((((Rms.new 4).next_state 1).next_state 1).next_state 1).next_state 1).next_state 0
      = ⟨[1, 1, 1, 0], 3⟩ := by
    rw [s4]; norm_num [Rms.next_state, Rms.pop_front, Rms.push_back]
  refine ⟨?_, ?_, ?_, ?_, ?_⟩
  · rw [Rms.next_out_eq _ _ (by rw [e0]; norm_num), s1]
    norm_num [Rms.calc_rms_sq]
  · rw [Rms.next_out_eq _ _ (by rw [s1]; norm_num), s2]
    norm_num [Rms.calc_rms_sq]
  · rw [Rms.next_out_eq _ _ (by rw [s2]; norm_num), s3]
    norm_num [Rms.calc_rms_sq]
  · rw [Rms.next_out_eq _ _ (by rw [s3]; norm_num), s4]
    norm_num [Rms.calc_rms_sq, Real.sqrt_one]
  · rw [Rms.next_out_eq _ _ (by rw [s4]; norm_num), s5]
    norm_num [Rms.calc_rms_sq]

/-- C7 (confirmed): with a zero-length window, `Rms::next` returns `0` and
leaves the whole state (window and sum) unchanged — defined boundary
behavior, not an error. -/
theorem c7_empty_window_next (r : Rms) (sample : ℚ)
    (h : r.window.length = 0) :
    r.next_state sample = r ∧ r.next_out sample = 0 := by
  unfold Rms.next_state Rms.next_out
  rw [if_pos h, if_pos h]
  exact ⟨rfl, rfl⟩

/-- Witness for `c7_empty_window_next` at `Rms.new 0`, sample `3`. -/
theorem c7_empty_window_next_witness :
    (Rms.new 0).window.length = 0 ∧
    ((Rms.new 0).next_state 3 = Rms.new 0 ∧ (Rms.new 0).next_out 3 = 0) :=
  ⟨by decide, c7_empty_window_next (Rms.new 0) 3 (by decide)⟩

/-- `Rms::pop_front` keeps the running sum non-negative (clamped). -/
theorem Rms.pop_front_sum_nonneg (r : Rms) (h : 0 ≤ r.sum) :
    0 ≤ r.pop_front.sum := by
  obtain ⟨w, s⟩ := r
  cases w with
  | nil => exact h
  | cons x rest =>
      show 0 ≤ if s - x < 0 then 0 else s - x
      split_ifs with hd
      · exact le_refl 0
      · exact not_lt.mp hd

/-- `Rms::push_back` keeps the running sum non-negative. -/
theorem Rms.push_back_sum_nonneg (r : Rms) (s : ℚ) (h : 0 ≤ r.sum) :
    0 ≤ (r.push_back s).sum :=
  add_nonneg h (mul_self_nonneg s)

/-- `Rms::next` keeps the running sum non-negative. -/
theorem Rms.next_state_sum_nonneg (r : Rms) (s : ℚ) (h : 0 ≤ r.sum) :
    0 ≤ (r.next_state s).sum := by
  unfold Rms.next_state
  split_ifs
  · exact h
  · exact Rms.push_back_sum_nonneg _ s (Rms.pop_front_sum_nonneg r h)

/-- Iterated `Rms::pop_front` keeps the running sum non-negative. -/
theorem Rms.pop_front_n_sum_nonneg (k : ℕ) (r : Rms) (h : 0 ≤ r.sum) :
    0 ≤ (Rms.pop_front_n k r).sum := by
  induction k generalizing r with
  | zero => exact h
  | succ k ih => exact ih r.pop_front (Rms.pop_front_sum_nonneg r h)

/-- `Rms::set_window_frames` keeps the running sum non-negative. -/
theorem Rms.set_window_frames_sum_nonneg (r : Rms) (n : ℕ) (h : 0 ≤ r.sum) :
    0 ≤ (r.set_window_frames n).sum := by
  simp only [Rms.set_window_frames]
  split_ifs
  · exact h
  · exact Rms.pop_front_n_sum_nonneg _ r h
  · exact h

/-- Every single `RmsOp` keeps the running sum non-negative. -/
theorem Rms.applyOp_sum_nonneg (r : Rms) (op : RmsOp) (h : 0 ≤ r.sum) :
    0 ≤ (r.applyOp op).sum := by
  cases op with
  | next s => exact Rms.next_state_sum_nonneg r s h
  | reset => exact le_refl 0
  | setWindow n => exact Rms.set_window_frames_sum_nonneg r n h

/-- Any sequence of `RmsOp`s keeps the running sum non-negative. -/
theorem Rms.applyOps_sum_nonneg (r : Rms) (ops : List RmsOp) (h : 0 ≤ r.sum) :
    0 ≤ (r.applyOps ops).sum := by
  induction ops generalizing r with
  | nil => exact h
  | cons op ops ih => exact ih (r.applyOp op) (Rms.applyOp_sum_nonneg r op h)

/-- C8 (confirmed): after any interleaving of `next`, `reset` and
`set_window_frames` operations from a fresh detector, the running sum is
`≥ 0`, the argument of the square root (`sum / len`) is `≥ 0`, and the value
returned by the next `next` call is `≥ 0`. -/
theorem c8_sum_and_output_nonneg (n : ℕ) (ops : List RmsOp) (sample : ℚ) :
    0 ≤ ((Rms.new n).applyOps ops).sum ∧
    0 ≤ ((Rms.new n).applyOps ops).calc_rms_sq ∧
    0 ≤ ((Rms.new n).applyOps ops).next_out sample := by
  have hsum : 0 ≤ ((Rms.new n).applyOps ops).sum :=
    Rms.applyOps_sum_nonneg _ _ (le_refl 0)
  refine ⟨hsum, div_nonneg hsum (Nat.cast_nonneg _), ?_⟩
  unfold Rms.next_out
  split_ifs
  · exact le_refl 0
  · exact Real.sqrt_nonneg _

/-- C9 (confirmed): `MultiChannelEnvelopeDetector::next(channel_idx, sample)`
panics (modelled `none`) whenever `channel_idx` is at or beyond the channel
count, and under the precondition `channel_idx < channel_count` it always
produces a value. -/
theorem c9_next_out_of_bounds {D : Type} [Mode D]
    (d : MultiChannelEnvelopeDetector D) (channel_idx : ℕ) (sample : ℚ) :
    (d.channel_mode.channels.length ≤ channel_idx →
      MultiChannelEnvelopeDetector.next d channel_idx sample = none) ∧
    (channel_idx < d.channel_mode.channels.length →
      (MultiChannelEnvelopeDetector.next d channel_idx sample).isSome = true) := by
  constructor
  · intro h
    unfold MultiChannelEnvelopeDetector.next
    rw [List.getElem?_eq_none h]
  · intro h
    unfold MultiChannelEnvelopeDetector.next
    rw [List.getElem?_eq_getElem h]
    rfl

/-- The two-channel full-wave peak detector of the spec's fail-fast
scenario: the value produced by
`MultiChannelEnvelopeDetector::peak(1.0, 2.0, 2)`. -/
noncomputable def two_channel_peak_detector : MultiChannelEnvelopeDetector Peak :=
  EnvelopeDetector.new ⟨List.replicate 2 Mono.peak⟩ 1 2

/-- Witness for `c9_next_out_of_bounds` on a two-channel peak detector:
index 2 panics, index 1 produces a value. -/
theorem c9_next_out_of_bounds_witness :
    MultiChannelEnvelopeDetector.next two_channel_peak_detector 2 1 = none ∧
    (MultiChannelEnvelopeDetector.next two_channel_peak_detector 1 1).isSome = true :=
  ⟨(c9_next_out_of_bounds two_channel_peak_detector 2 1).1
      (by norm_num [two_channel_peak_detector, EnvelopeDetector.new]),
   (c9_next_out_of_bounds two_channel_peak_detector 1 1).2
      (by norm_num [two_channel_peak_detector, EnvelopeDetector.new])⟩

/-- C10 (confirmed): `MonoEnvelopeDetector::<Rms>::set_window_frames(n)`
changes only the RMS window state: the attack gain, the release gain and
`last_env_sample` are untouched, and the detection mode is exactly the old
one after `Rms::set_window_frames(n)`. -/
theorem c10_window_resize_preserves_smoothing_state
    (d : MonoEnvelopeDetector Rms) (n : ℕ) :
    (MonoEnvelopeDetector.set_window_frames d n).attack_gain = d.attack_gain ∧
    (MonoEnvelopeDetector.set_window_frames d n).release_gain = d.release_gain ∧
    (MonoEnvelopeDetector.set_window_frames d n).channel_mode.last_env_sample =
      d.channel_mode.last_env_sample ∧
    (MonoEnvelopeDetector.set_window_frames d n).channel_mode.detection_mode =
      d.channel_mode.detection_mode.set_window_frames n :=
  ⟨rfl, rfl, rfl, rfl⟩
